import Mathlib

/-!
Verification of the Canvas TUI task aggregator (`canvas_tui.py`).

This file gives a shallow embedding of the parts of the program that the
claims speak about:

* the datetime model (`PyDateTime`, `DateStr`) covering naive timestamps,
  offset-aware ISO8601 timestamps, Zulu-suffixed timestamps and bare dates,
  together with the two parsers used by the source (`dateutil.parser.isoparse`
  and `datetime.fromisoformat`) and `datetime.isoformat`;
* the Canvas API gateway (`get_active_courses`, `get_assignments`,
  `get_planner_notes`, `get_calendar_events`, `create_planner_note`,
  `create_calendar_event`, `create_task`), with the network modelled as an
  explicit response value and exceptions as an explicit constructor /
  `Except`;
* the aggregator `refresh_tasks` (`processNote`, `processEvent`,
  `processAssignment`, `sortTasks`, `refreshTasks`), with the ambient clock
  modelled as an explicit `Clock` value carrying the current UTC instant and
  the machine-local UTC offset (Python's `datetime.now()` returns local wall
  time while `datetime.now(ZoneInfo('Asia/Manila'))` returns Manila wall
  time; both are derived from the same instant here).

All wall-clock values and instants are integers counting seconds.
-/

namespace Canvas

/-! ### Datetime model -/

/-- Manila is UTC+8, with no daylight saving; offset in seconds. -/
def manilaOff : Int := 8 * 3600

/-- A Python `datetime`: either naive (wall-clock seconds, no tzinfo) or
aware (UTC instant in seconds together with the zone's UTC offset in
seconds; the wall clock reading is `instant + off`). -/
inductive PyDateTime where
  | naive (wall : Int)
  | aware (instant : Int) (off : Int)
  deriving DecidableEq

/-- `datetime + timedelta(seconds=s)`. -/
def addSeconds : PyDateTime → Int → PyDateTime
  | .naive w, s => .naive (w + s)
  | .aware i o, s => .aware (i + s) o

/-- The normalization applied by `refresh_tasks` to every parsed date:
if aware, `astimezone(ZoneInfo('Asia/Manila'))`; if naive,
`replace(tzinfo=timezone.utc).astimezone(ZoneInfo('Asia/Manila'))`;
then `replace(tzinfo=None)`.  The result is the Manila wall clock. -/
def toManilaNaive : PyDateTime → Int
  | .naive w => w + manilaOff
  | .aware i _ => i + manilaOff

/-- A date string, abstracted to its parse-relevant shape:
an offset-aware ISO8601 timestamp (denoting `instant`, written with UTC
offset `off`), a Zulu-suffixed timestamp (`...Z`, denoting `instant`),
a naive timestamp (wall clock, no offset), a bare date (days since epoch),
or a string neither parser accepts. -/
inductive DateStr where
  | awareStr (instant : Int) (off : Int)
  | zuluStr (instant : Int)
  | naiveStr (wall : Int)
  | bareDate (days : Int)
  | malformed (s : String)
  deriving DecidableEq

/-- `dateutil.parser.isoparse`: accepts all four well-formed shapes
(a bare date parses to naive midnight); raises (= `none`) on anything
else. -/
def isoparse : DateStr → Option PyDateTime
  | .awareStr i o => some (.aware i o)
  | .zuluStr i => some (.aware i 0)
  | .naiveStr w => some (.naive w)
  | .bareDate d => some (.naive (d * 86400))
  | .malformed _ => none

/-- `datetime.fromisoformat`: accepts `isoformat` output and bare dates but
not the `Z` suffix (the source works around this with
`.replace('Z', '+00:00')`); raises (= `none`) otherwise. -/
def fromisoformat : DateStr → Option PyDateTime
  | .awareStr i o => some (.aware i o)
  | .zuluStr _ => none
  | .naiveStr w => some (.naive w)
  | .bareDate d => some (.naive (d * 86400))
  | .malformed _ => none

/-- `s.replace('Z', '+00:00')`: rewrites a Zulu suffix to an explicit
+00:00 offset and leaves the other shapes unchanged. -/
def replaceZ : DateStr → DateStr
  | .zuluStr i => .awareStr i 0
  | d => d

/-- `datetime.isoformat`: a naive datetime prints without an offset, an
aware one with its numeric offset (never with `Z`). -/
def isoformat : PyDateTime → DateStr
  | .naive w => .naiveStr w
  | .aware i o => .awareStr i o

/-! ### Canvas API gateway: fetch operations -/

/-- A course as returned by `GET /api/v1/courses`. -/
structure Course where
  id : Int
  name : String
  deriving DecidableEq

/-- Outcome of one HTTP GET: a response with a status code and a JSON body
(`none` when the body is not valid JSON, so `response.json()` raises), or a
raised network exception. -/
inductive NetResp (α : Type) where
  | resp (status : Nat) (body : Option α)
  | exn (msg : String)

/-- `CanvasAPI.get_active_courses`: `response.json()` on a 200 response
(a body that fails to decode raises, and the exception handler returns
`[]`), `[]` on any other status, `[]` on a raised network exception. -/
def get_active_courses (r : NetResp (List Course)) : List Course :=
  match r with
  | .resp s body =>
    if s = 200 then
      match body with
      | some l => l
      | none => []
    else []
  | .exn _ => []

/-- A raw assignment item, with the `course_name` label that
`refresh_tasks` injects from the owning course.
`submission_workflow_state` is `(assignment.get("submission") or
{}).get("workflow_state")`. -/
structure Assignment where
  name : String
  id : Option Int
  course_id : Option Int
  due_at : Option DateStr
  has_submitted_submissions : Bool
  submission_workflow_state : Option String
  course_name : Option String
  deriving DecidableEq

/-- `CanvasAPI.get_assignments(course_id)`. -/
def get_assignments (_course_id : Int) (r : NetResp (List Assignment)) :
    List Assignment :=
  match r with
  | .resp s body =>
    if s = 200 then
      match body with
      | some l => l
      | none => []
    else []
  | .exn _ => []

/-- A raw planner-note item. -/
structure PlannerNote where
  id : Int
  title : String
  workflow_state : Option String
  todo_date : Option DateStr
  course_id : Option Int
  deriving DecidableEq

/-- `CanvasAPI.get_planner_notes`. -/
def get_planner_notes (r : NetResp (List PlannerNote)) : List PlannerNote :=
  match r with
  | .resp s body =>
    if s = 200 then
      match body with
      | some l => l
      | none => []
    else []
  | .exn _ => []

/-- A raw calendar-event item. -/
structure CalendarEvent where
  title : Option String
  start_at : Option DateStr
  all_day_date : Option DateStr
  context_name : Option String
  context_code : Option String
  html_url : Option String
  deriving DecidableEq

/-- `CanvasAPI.get_calendar_events(start_date, end_date)`: the range is
forwarded as query parameters; the return behaviour is the same silent
degradation as the other fetches. -/
def get_calendar_events (_start_date _end_date : PyDateTime)
    (r : NetResp (List CalendarEvent)) : List CalendarEvent :=
  match r with
  | .resp s body =>
    if s = 200 then
      match body with
      | some l => l
      | none => []
    else []
  | .exn _ => []

/-! ### Canvas API gateway: create operations -/

/-- Result dictionary of the create operations: `success`, and the keys
that are present on the respective paths (`data` on success, `method` on
success or on overall failure, `error` on failure). -/
structure CreateResult where
  success : Bool
  data : Option String
  method : Option String
  error : Option String
  deriving DecidableEq

/-- Outcome of one HTTP POST: status code, response text, and the JSON body
(`none` when `response.json()` would raise), or a raised exception. -/
inductive PostResp where
  | resp (status : Nat) (text : String) (jsonBody : Option String)
  | exn (msg : String)

/-- A request issued by the create operations, recorded for the fallback
trace.  There are only two create endpoints in the program; no
assignment-creation request exists. -/
inductive ApiRequest where
  | plannerPost (title details : String) (todo_date : DateStr)
      (course_id : Option Int)
  | calendarPost (title description : String) (start_at end_at : DateStr)
      (all_day : Bool) (context_code : Option Int)
  deriving DecidableEq

/-- `if course_id:` — Python truthiness: `None` and `0` are both falsy, so
the key is attached only for a nonzero id. -/
def truthyId : Option Int → Option Int
  | some c => if c = 0 then none else some c
  | none => none

/-- `CanvasAPI.create_planner_note`: one POST; success iff the status is
200 or 201 and the body parses; every exception is caught.  Returns the
result dictionary together with the request that was issued. -/
def create_planner_note (net : PostResp) (title details : String)
    (todo_date : DateStr) (course_id : Option Int) :
    CreateResult × ApiRequest :=
  let req := ApiRequest.plannerPost title details todo_date
    (truthyId course_id)
  match net with
  | .resp s text jsonBody =>
    if s = 200 ∨ s = 201 then
      match jsonBody with
      | some j =>
        ({ success := true, data := some j, method := some "planner_note",
           error := none }, req)
      | none =>
        ({ success := false, data := none, method := none,
           error := some "json decode error" }, req)
    else
      ({ success := false, data := none, method := none,
         error := some text }, req)
  | .exn msg =>
    ({ success := false, data := none, method := none,
       error := some msg }, req)

/-- `CanvasAPI.create_calendar_event`: computes
`end_at = (fromisoformat(start_at.replace('Z','+00:00')) + 1h).isoformat()`
**outside** the try block — a parse failure there propagates to the caller
(`Except.error`) — then issues one POST with the decorated title and
description. -/
def create_calendar_event (net : PostResp) (title description : String)
    (start_at : DateStr) (course_id : Option Int) :
    Except String (CreateResult × ApiRequest) :=
  match fromisoformat (replaceZ start_at) with
  | none => .error "fromisoformat: invalid isoformat string"
  | some start_dt =>
    let end_at := isoformat (addSeconds start_dt 3600)
    let req := ApiRequest.calendarPost ("📋 " ++ title)
      ("Task: " ++ title ++ "\n\n" ++ description) start_at end_at false
      (truthyId course_id)
    match net with
    | .resp s text jsonBody =>
      if s = 200 ∨ s = 201 then
        match jsonBody with
        | some j =>
          .ok ({ success := true, data := some j,
                 method := some "calendar_event", error := none }, req)
        | none =>
          .ok ({ success := false, data := none, method := none,
                 error := some "json decode error" }, req)
      else
        .ok ({ success := false, data := none, method := none,
               error := some text }, req)
    | .exn msg =>
      .ok ({ success := false, data := none, method := none,
             error := some msg }, req)

/-- `CanvasAPI.create_task`: planner note first; on failure fall back to a
calendar event; if both fail, report overall failure with method `'none'`.
Returns the final result dictionary together with the ordered list of
requests that were issued (the fallback trace). -/
def create_task (netPlanner netCalendar : PostResp)
    (title description : String) (due_date : PyDateTime)
    (course_id : Option Int) :
    Except String (CreateResult × List ApiRequest) :=
  let iso_date := isoformat due_date
  let r1 := create_planner_note netPlanner title description iso_date
    course_id
  if r1.1.success then .ok (r1.1, [r1.2])
  else
    match create_calendar_event netCalendar title description iso_date
      course_id with
    | .error e => .error e
    | .ok r2 =>
      if r2.1.success then .ok (r2.1, [r1.2, r2.2])
      else
        .ok ({ success := false, data := none, method := some "none",
               error := some "All methods failed" }, [r1.2, r2.2])

/-! ### The aggregator: `CanvasTUI.refresh_tasks` -/

/-- The ambient clock: the current UTC instant and the machine-local UTC
offset, both in seconds.  `datetime.now()` reads the local wall clock,
`datetime.now(ZoneInfo('Asia/Manila'))` the Manila wall clock. -/
structure Clock where
  instant : Int
  localOff : Int
  deriving DecidableEq

/-- `now = datetime.now()` — naive local wall time. -/
def nowLocal (c : Clock) : Int := c.instant + c.localOff

/-- `now_manila = datetime.now(ZoneInfo('Asia/Manila')).replace(tzinfo=None)`. -/
def nowManila (c : Clock) : Int := c.instant + manilaOff

/-- `cutoff = now - timedelta(days=30)` — naive local wall time. -/
def cutoff (c : Clock) : Int := nowLocal c - 30 * 86400

/-- `future = now + timedelta(days=30)` — naive local wall time. -/
def future (c : Clock) : Int := nowLocal c + 30 * 86400

/-- `cutoff.replace(tzinfo=timezone.utc).astimezone(ZoneInfo("Asia/Manila"))
.replace(tzinfo=None)`: the naive local value is reinterpreted as a UTC
instant, then shifted to the Manila wall clock. -/
def cutoffManila (c : Clock) : Int := cutoff c + manilaOff

/-- `future.replace(tzinfo=timezone.utc).astimezone(ZoneInfo("Asia/Manila"))
.replace(tzinfo=None)`. -/
def futureManila (c : Clock) : Int := future c + manilaOff

/-- The heterogeneous `'course'` entry of a task dictionary: planner notes
store the raw integer `course_id` (or the string `'Personal'`), the other
kinds store a string label. -/
inductive CourseLabel where
  | id (n : Int)
  | name (s : String)
  deriving DecidableEq

/-- The raw source payload kept in the task's `'raw'` key. -/
inductive RawItem where
  | note (n : PlannerNote)
  | event (e : CalendarEvent)
  | assign (a : Assignment)
  deriving DecidableEq

/-- A normalized task dictionary.  `due_date` is the Manila-naive wall
clock in seconds; `ttype` is the `'type'` entry. -/
structure Task where
  title : String
  due_date : Int
  course : CourseLabel
  ttype : String
  url : Option String
  raw : RawItem
  deriving DecidableEq

/-- One iteration of the planner-note loop: skip notes whose
`workflow_state` is neither absent nor `'active'`; skip notes without a
`todo_date`; inside the per-item try block, build the deep link, parse and
normalize the date, and keep the note iff
`now_manila <= due_naive <= future_manila`.  Any exception in the try
block drops just this item. -/
def processNote (c : Clock) (base : String) (n : PlannerNote) :
    Option Task :=
  if n.workflow_state = none ∨ n.workflow_state = some "active" then
    match n.todo_date with
    | none => none
    | some f =>
      let note_url := match n.course_id with
        | some cid => some (base ++ "/courses/" ++ toString cid ++
            "/planner_items?filter=planner_note_" ++ toString n.id)
        | none => none
      match isoparse f with
      | none => none
      | some due =>
        let due_naive := toManilaNaive due
        if nowManila c ≤ due_naive ∧ due_naive ≤ futureManila c then
          some { title := n.title, due_date := due_naive,
                 course := match n.course_id with
                   | some cid => .id cid
                   | none => .name "Personal",
                 ttype := "Planner Note", url := note_url, raw := .note n }
        else none
  else none

/-- `event.get('context_name') or event.get('context_code', 'Calendar')` —
Python `or` falls through on an absent or empty `context_name`. -/
def eventContext (e : CalendarEvent) : String :=
  match e.context_name with
  | some s => if s = "" then e.context_code.getD "Calendar" else s
  | none => e.context_code.getD "Calendar"

/-- The date-field selection of the calendar-event loop: `start_at` when
present, else `all_day_date`, else no date (the item is skipped). -/
def eventDate (e : CalendarEvent) : Option DateStr :=
  match e.start_at with
  | some f => some f
  | none => e.all_day_date

/-- One iteration of the calendar-event loop (the whole body is the
per-item try block): prefer `start_at`, fall back to `all_day_date`, skip
the item when both are absent; parse, normalize, and keep iff
`now_manila <= due_naive <= future_manila`. -/
def processEvent (c : Clock) (e : CalendarEvent) : Option Task :=
  match eventDate e with
  | none => none
  | some f =>
    match isoparse f with
    | none => none
    | some due =>
      let due_naive := toManilaNaive due
      if nowManila c ≤ due_naive ∧ due_naive ≤ futureManila c then
        some { title := e.title.getD "Untitled Event",
               due_date := due_naive, course := .name (eventContext e),
               ttype := "Calendar Event", url := e.html_url,
               raw := .event e }
      else none

/-- One iteration of the assignment loop: skip when
`has_submitted_submissions` is truthy or the submission workflow state is
`submitted`, `graded` or `complete`; skip without a `due_at`; inside the
per-item try block build the URL, parse, normalize, and keep iff
`now_manila <= due_naive <= future_manila`. -/
def processAssignment (c : Clock) (base : String) (a : Assignment) :
    Option Task :=
  if a.has_submitted_submissions ∨
      a.submission_workflow_state = some "submitted" ∨
      a.submission_workflow_state = some "graded" ∨
      a.submission_workflow_state = some "complete" then
    none
  else
    match a.due_at with
    | none => none
    | some f =>
      let assignment_url := match a.course_id, a.id with
        | some cid, some aid => some (base ++ "/courses/" ++ toString cid ++
            "/assignments/" ++ toString aid)
        | _, _ => none
      match isoparse f with
      | none => none
      | some due =>
        let due_naive := toManilaNaive due
        if nowManila c ≤ due_naive ∧ due_naive ≤ futureManila c then
          some { title := a.name, due_date := due_naive,
                 course := .name (a.course_name.getD "Unknown"),
                 ttype := "Assignment", url := assignment_url,
                 raw := .assign a }
        else none

/-- Insert a task into a list, before the first strictly later task and
after every earlier-or-equal one: the insertion step of a stable sort, as
`list.sort` (Timsort) is stable. -/
def insertTask (t : Task) : List Task → List Task
  | [] => [t]
  | u :: us =>
    if t.due_date ≤ u.due_date then t :: u :: us else u :: insertTask t us

/-- `self.tasks.sort(key=lambda x: x['due_date'])`: a stable sort,
ascending by `due_date`. -/
def sortTasks : List Task → List Task
  | [] => []
  | t :: ts => insertTask t (sortTasks ts)

/-- The aggregation core of `CanvasTUI.refresh_tasks`: process the planner
notes, then the calendar events, then the assignments, appending the
surviving tasks in that order, and finally sort by due date. -/
def refreshTasks (c : Clock) (base : String) (notes : List PlannerNote)
    (events : List CalendarEvent) (assigns : List Assignment) :
    List Task :=
  sortTasks (notes.filterMap (processNote c base) ++
    events.filterMap (processEvent c) ++
    assigns.filterMap (processAssignment c base))

/-- The date field that each source kind's loop reads: `todo_date` for
notes, `start_at` (falling back to `all_day_date`) for events, `due_at`
for assignments. -/
def rawDateField : RawItem → Option DateStr
  | .note n => n.todo_date
  | .event e => eventDate e
  | .assign a => a.due_at

/-! ### Helper lemmas -/

/-- `fromisoformat` (after the `Z` workaround) inverts `isoformat`. -/
theorem fromisoformat_replaceZ_isoformat (d : PyDateTime) :
    fromisoformat (replaceZ (isoformat d)) = some d := by
  cases d <;> rfl

/-- `create_calendar_event` on a start string that `fromisoformat`
accepts: it always returns `.ok` and issues exactly one calendar POST,
decorated, with `end_at` one hour after the parsed start. -/
theorem create_calendar_event_parse_ok (net : PostResp)
    (title description : String) (sa : DateStr) (dt : PyDateTime)
    (cid : Option Int) (h : fromisoformat (replaceZ sa) = some dt) :
    ∃ r2 : CreateResult,
      create_calendar_event net title description sa cid =
        .ok (r2, ApiRequest.calendarPost ("📋 " ++ title)
          ("Task: " ++ title ++ "\n\n" ++ description) sa
          (isoformat (addSeconds dt 3600)) false (truthyId cid)) := by
  unfold create_calendar_event
  rw [h]
  cases net with
  | resp s text jb =>
    by_cases hs : s = 200 ∨ s = 201
    · cases jb <;> simp [hs]
    · simp [hs]
  | exn m => simp

theorem mem_insertTask {x t : Task} {l : List Task} :
    x ∈ insertTask t l ↔ x = t ∨ x ∈ l := by
  induction l with
  | nil => simp [insertTask]
  | cons u us ih =>
    unfold insertTask
    by_cases h : t.due_date ≤ u.due_date
    · simp only [if_pos h, List.mem_cons]
    · simp only [if_neg h, List.mem_cons, ih]
      tauto

theorem mem_sortTasks {x : Task} {l : List Task} :
    x ∈ sortTasks l ↔ x ∈ l := by
  induction l with
  | nil => simp [sortTasks]
  | cons t ts ih =>
    unfold sortTasks
    rw [mem_insertTask]
    simp [ih]

theorem pairwise_insertTask {t : Task} {l : List Task}
    (h : l.Pairwise (fun a b => a.due_date ≤ b.due_date)) :
    (insertTask t l).Pairwise (fun a b => a.due_date ≤ b.due_date) := by
  induction l with
  | nil => simp [insertTask]
  | cons u us ih =>
    rw [List.pairwise_cons] at h
    unfold insertTask
    by_cases hle : t.due_date ≤ u.due_date
    · rw [if_pos hle, List.pairwise_cons]
      refine ⟨?_, List.pairwise_cons.mpr h⟩
      intro x hx
      rcases List.mem_cons.mp hx with hx | hx
      · exact hx ▸ hle
      · exact le_trans hle (h.1 x hx)
    · rw [if_neg hle, List.pairwise_cons]
      refine ⟨?_, ih h.2⟩
      intro x hx
      rcases mem_insertTask.mp hx with hx | hx
      · exact hx ▸ le_of_lt (lt_of_not_le hle)
      · exact h.1 x hx

theorem sortTasks_pairwise (l : List Task) :
    (sortTasks l).Pairwise (fun a b => a.due_date ≤ b.due_date) := by
  induction l with
  | nil => simp [sortTasks]
  | cons t ts ih => exact pairwise_insertTask ih

/-- Inserting a task whose due date is `d` commutes with filtering on due
date `d`: every task the insertion passes over has a strictly smaller due
date. -/
theorem filter_insertTask_eq {t : Task} {d : Int} (l : List Task)
    (ht : t.due_date = d) :
    (insertTask t l).filter (fun u => u.due_date == d) =
      t :: l.filter (fun u => u.due_date == d) := by
  induction l with
  | nil => simp [insertTask, List.filter_cons, ht]
  | cons u us ih =>
    unfold insertTask
    by_cases hle : t.due_date ≤ u.due_date
    · rw [if_pos hle, List.filter_cons]
      simp [ht]
    · have hu : (u.due_date == d) = false := by
        refine beq_eq_false_iff_ne.mpr ?_
        intro he
        exact hle (by rw [ht, he])
      rw [if_neg hle]
      simp [List.filter_cons, hu, ih]

theorem filter_insertTask_ne {t : Task} {d : Int} (l : List Task)
    (ht : t.due_date ≠ d) :
    (insertTask t l).filter (fun u => u.due_date == d) =
      l.filter (fun u => u.due_date == d) := by
  induction l with
  | nil => simp [insertTask, List.filter_cons, beq_eq_false_iff_ne.mpr ht]
  | cons u us ih =>
    unfold insertTask
    by_cases hle : t.due_date ≤ u.due_date
    · rw [if_pos hle]
      simp [List.filter_cons, beq_eq_false_iff_ne.mpr ht]
    · rw [if_neg hle]
      simp [List.filter_cons, ih]

/-- Stability of `sortTasks`: the subsequence of tasks with any fixed due
date is unchanged. -/
theorem sortTasks_filter_due (l : List Task) (d : Int) :
    (sortTasks l).filter (fun u => u.due_date == d) =
      l.filter (fun u => u.due_date == d) := by
  induction l with
  | nil => rfl
  | cons t ts ih =>
    unfold sortTasks
    by_cases ht : t.due_date = d
    · rw [filter_insertTask_eq _ ht, ih, List.filter_cons]
      simp [ht]
    · rw [filter_insertTask_ne _ ht, ih, List.filter_cons]
      simp [beq_eq_false_iff_ne.mpr ht]

/-! #### Per-item drop and inclusion lemmas -/

theorem processNote_drop_inactive {c : Clock} {base : String}
    {n : PlannerNote} {s : String} (hw : n.workflow_state = some s)
    (hs : s ≠ "active") : processNote c base n = none := by
  have hcond : ¬ (n.workflow_state = none ∨
      n.workflow_state = some "active") := by
    simp [hw, hs]
  simp only [processNote, if_neg hcond]

theorem processAssignment_drop_submitted {c : Clock} {base : String}
    {a : Assignment}
    (h : a.submission_workflow_state = some "graded" ∨
      a.submission_workflow_state = some "submitted") :
    processAssignment c base a = none := by
  rcases h with h | h <;> simp [processAssignment, h]

theorem processNote_drop_malformed {c : Clock} {base : String}
    {n : PlannerNote} {s : String}
    (hd : n.todo_date = some (.malformed s)) :
    processNote c base n = none := by
  simp only [processNote, hd, isoparse]
  split <;> rfl

theorem processEvent_drop_malformed {c : Clock} {e : CalendarEvent}
    {s : String} (hd : e.start_at = some (.malformed s)) :
    processEvent c e = none := by
  simp [processEvent, eventDate, hd, isoparse]

theorem processAssignment_drop_malformed {c : Clock} {base : String}
    {a : Assignment} {s : String} (hd : a.due_at = some (.malformed s)) :
    processAssignment c base a = none := by
  simp only [processAssignment, hd, isoparse]
  split <;> rfl

theorem processNote_drop_before_now {c : Clock} {base : String}
    {n : PlannerNote} {f : DateStr} {p : PyDateTime}
    (hd : n.todo_date = some f) (hp : isoparse f = some p)
    (hlt : toManilaNaive p < nowManila c) :
    processNote c base n = none := by
  simp only [processNote, hd, hp]
  split
  · rw [if_neg fun hcon => absurd hcon.1 (not_le.mpr hlt)]
  · rfl

theorem processEvent_drop_before_now {c : Clock} {e : CalendarEvent}
    {f : DateStr} {p : PyDateTime} (hd : eventDate e = some f)
    (hp : isoparse f = some p) (hlt : toManilaNaive p < nowManila c) :
    processEvent c e = none := by
  simp only [processEvent, hd, hp]
  rw [if_neg fun hcon => absurd hcon.1 (not_le.mpr hlt)]

theorem processAssignment_drop_before_now {c : Clock} {base : String}
    {a : Assignment} {f : DateStr} {p : PyDateTime}
    (hd : a.due_at = some f) (hp : isoparse f = some p)
    (hlt : toManilaNaive p < nowManila c) :
    processAssignment c base a = none := by
  simp only [processAssignment, hd, hp]
  split
  · rfl
  · rw [if_neg fun hcon => absurd hcon.1 (not_le.mpr hlt)]

theorem processNote_ne_none_iff {c : Clock} {base : String}
    {n : PlannerNote} {f : DateStr} {p : PyDateTime}
    (hw : n.workflow_state = none ∨ n.workflow_state = some "active")
    (hd : n.todo_date = some f) (hp : isoparse f = some p) :
    processNote c base n ≠ none ↔
      nowManila c ≤ toManilaNaive p ∧ toManilaNaive p ≤ futureManila c := by
  simp only [processNote, if_pos hw, hd, hp]
  by_cases hb : nowManila c ≤ toManilaNaive p ∧
      toManilaNaive p ≤ futureManila c
  · simp [hb]
  · simp [hb]

theorem processEvent_ne_none_iff {c : Clock} {e : CalendarEvent}
    {f : DateStr} {p : PyDateTime} (hd : eventDate e = some f)
    (hp : isoparse f = some p) :
    processEvent c e ≠ none ↔
      nowManila c ≤ toManilaNaive p ∧ toManilaNaive p ≤ futureManila c := by
  simp only [processEvent, hd, hp]
  by_cases hb : nowManila c ≤ toManilaNaive p ∧
      toManilaNaive p ≤ futureManila c
  · simp [hb]
  · simp [hb]

theorem processAssignment_ne_none_iff {c : Clock} {base : String}
    {a : Assignment} {f : DateStr} {p : PyDateTime}
    (hsub : ¬ (a.has_submitted_submissions ∨
      a.submission_workflow_state = some "submitted" ∨
      a.submission_workflow_state = some "graded" ∨
      a.submission_workflow_state = some "complete"))
    (hd : a.due_at = some f) (hp : isoparse f = some p) :
    processAssignment c base a ≠ none ↔
      nowManila c ≤ toManilaNaive p ∧ toManilaNaive p ≤ futureManila c := by
  simp only [processAssignment, if_neg hsub, hd, hp]
  by_cases hb : nowManila c ≤ toManilaNaive p ∧
      toManilaNaive p ≤ futureManila c
  · simp [hb]
  · simp [hb]

/-! #### Inversion lemmas: where an aggregated task's due date comes from -/

theorem processNote_eq_some {c : Clock} {base : String} {n : PlannerNote}
    {t : Task} (h : processNote c base n = some t) :
    ∃ f p, n.todo_date = some f ∧ isoparse f = some p ∧
      t.due_date = toManilaNaive p ∧ t.raw = .note n := by
  simp only [processNote] at h
  split at h
  · split at h
    · exact absurd h (by simp)
    · rename_i f hd
      split at h
      · exact absurd h (by simp)
      · rename_i p hp
        split at h
        · injection h with h'
          exact ⟨f, p, hd, hp, by rw [← h'], by rw [← h']⟩
        · exact absurd h (by simp)
  · exact absurd h (by simp)

theorem processEvent_eq_some {c : Clock} {e : CalendarEvent} {t : Task}
    (h : processEvent c e = some t) :
    ∃ f p, eventDate e = some f ∧ isoparse f = some p ∧
      t.due_date = toManilaNaive p ∧ t.raw = .event e := by
  simp only [processEvent] at h
  split at h
  · exact absurd h (by simp)
  · rename_i f hd
    split at h
    · exact absurd h (by simp)
    · rename_i p hp
      split at h
      · injection h with h'
        exact ⟨f, p, hd, hp, by rw [← h'], by rw [← h']⟩
      · exact absurd h (by simp)

theorem processAssignment_eq_some {c : Clock} {base : String}
    {a : Assignment} {t : Task} (h : processAssignment c base a = some t) :
    ∃ f p, a.due_at = some f ∧ isoparse f = some p ∧
      t.due_date = toManilaNaive p ∧ t.raw = .assign a := by
  simp only [processAssignment] at h
  split at h
  · exact absurd h (by simp)
  · split at h
    · exact absurd h (by simp)
    · rename_i f hd
      split at h
      · exact absurd h (by simp)
      · rename_i p hp
        split at h
        · injection h with h'
          exact ⟨f, p, hd, hp, by rw [← h'], by rw [← h']⟩
        · exact absurd h (by simp)

/-! ### Claim theorems -/

/-- C1: `create_task` attempts, in strict order, exactly two upstream
methods: first the planner-note POST; if and only if that fails, the
calendar-event POST, whose end time is the start time plus one hour and
whose title and description are decorated; if both fail it returns a
failure result with method `'none'`; it never issues more than those two
requests (there is no assignment tier). -/
theorem claim_C1_create_task_two_tier (netPlanner netCalendar : PostResp)
    (title description : String) (due_date : PyDateTime)
    (course_id : Option Int) :
    (∀ r reqs, create_task netPlanner netCalendar title description
        due_date course_id = .ok (r, reqs) → reqs.length ≤ 2) ∧
    ((create_planner_note netPlanner title description (isoformat due_date)
        course_id).1.success = true →
      create_task netPlanner netCalendar title description due_date
          course_id =
        .ok ((create_planner_note netPlanner title description
            (isoformat due_date) course_id).1,
          [(create_planner_note netPlanner title description
            (isoformat due_date) course_id).2])) ∧
    ((create_planner_note netPlanner title description (isoformat due_date)
        course_id).1.success = false →
      ∃ r2 : CreateResult,
        create_calendar_event netCalendar title description
            (isoformat due_date) course_id =
          .ok (r2, ApiRequest.calendarPost ("📋 " ++ title)
            ("Task: " ++ title ++ "\n\n" ++ description)
            (isoformat due_date) (isoformat (addSeconds due_date 3600))
            false (truthyId course_id)) ∧
        create_task netPlanner netCalendar title description due_date
            course_id =
          .ok ((if r2.success then r2
                else { success := false, data := none, method := some "none",
                       error := some "All methods failed" }),
            [(create_planner_note netPlanner title description
                (isoformat due_date) course_id).2,
             ApiRequest.calendarPost ("📋 " ++ title)
               ("Task: " ++ title ++ "\n\n" ++ description)
               (isoformat due_date) (isoformat (addSeconds due_date 3600))
               false (truthyId course_id)])) := by
  obtain ⟨r2, hr2⟩ := create_calendar_event_parse_ok netCalendar title
    description (isoformat due_date) due_date course_id
    (fromisoformat_replaceZ_isoformat due_date)
  cases hps : (create_planner_note netPlanner title description
      (isoformat due_date) course_id).1.success with
  | true =>
    refine ⟨?_, ?_, ?_⟩
    · intro r reqs h
      simp only [create_task] at h
      rw [hps] at h
      simp only [if_true, Except.ok.injEq, Prod.mk.injEq] at h
      obtain ⟨-, h2⟩ := h
      subst h2
      simp
    · intro _
      simp only [create_task]
      rw [hps]
      simp
    · intro hfail
      exact absurd hfail (by simp)
  | false =>
    refine ⟨?_, ?_, ?_⟩
    · intro r reqs h
      simp only [create_task] at h
      rw [hps, hr2] at h
      simp at h
      cases hs2 : r2.success <;> rw [hs2] at h <;> simp at h <;>
        obtain ⟨-, h2⟩ := h <;> subst h2 <;> simp
    · intro hsucc
      exact absurd hsucc (by simp)
    · intro _
      refine ⟨r2, hr2, ?_⟩
      cases hs2 : r2.success <;>
        (simp only [create_task]; rw [hps, hr2]; simp [hs2])

/-- C10: `create_task` never raises: the unguarded
`datetime.fromisoformat` inside the calendar-event fallback always
succeeds because its input is `due_date.isoformat()` (with the `Z`
workaround a no-op on `isoformat` output), so for every datetime value of
`due_date` the result is `.ok`. -/
theorem claim_C10_create_task_total (netPlanner netCalendar : PostResp)
    (title description : String) (due_date : PyDateTime)
    (course_id : Option Int) :
    ∃ v, create_task netPlanner netCalendar title description due_date
      course_id = .ok v := by
  obtain ⟨r2, hr2⟩ := create_calendar_event_parse_ok netCalendar title
    description (isoformat due_date) due_date course_id
    (fromisoformat_replaceZ_isoformat due_date)
  cases hps : (create_planner_note netPlanner title description
      (isoformat due_date) course_id).1.success with
  | true =>
    refine ⟨((create_planner_note netPlanner title description
      (isoformat due_date) course_id).1,
      [(create_planner_note netPlanner title description
        (isoformat due_date) course_id).2]), ?_⟩
    simp only [create_task]
    rw [hps]
    simp
  | false =>
    simp only [create_task]
    rw [hps, hr2]
    cases hs2 : r2.success <;> simp [hs2]

/-- C3: every fetch operation returns `[]` on any non-200 response and on
any raised exception (modelled by the `exn` constructor; the Lean
functions are total, mirroring that every exception is caught inside the
Python functions). -/
theorem claim_C3_fetch_silent_degradation :
    (∀ (s : Nat) (b : Option (List Course)), s ≠ 200 →
      get_active_courses (.resp s b) = []) ∧
    (∀ m, get_active_courses (.exn m) = []) ∧
    (∀ (cid : Int) (s : Nat) (b : Option (List Assignment)), s ≠ 200 →
      get_assignments cid (.resp s b) = []) ∧
    (∀ (cid : Int) m, get_assignments cid (.exn m) = []) ∧
    (∀ (s : Nat) (b : Option (List PlannerNote)), s ≠ 200 →
      get_planner_notes (.resp s b) = []) ∧
    (∀ m, get_planner_notes (.exn m) = []) ∧
    (∀ (d1 d2 : PyDateTime) (s : Nat) (b : Option (List CalendarEvent)),
      s ≠ 200 → get_calendar_events d1 d2 (.resp s b) = []) ∧
    (∀ (d1 d2 : PyDateTime) m, get_calendar_events d1 d2 (.exn m) = []) := by
  refine ⟨?_, ?_, ?_, ?_, ?_, ?_, ?_, ?_⟩
  · intro s b h
    simp [get_active_courses, h]
  · intro m
    rfl
  · intro cid s b h
    simp [get_assignments, h]
  · intro cid m
    rfl
  · intro s b h
    simp [get_planner_notes, h]
  · intro m
    rfl
  · intro d1 d2 s b h
    simp [get_calendar_events, h]
  · intro d1 d2 m
    rfl

/-- A concrete planner note due exactly 30 days + 1 second after "now" in
the reference timezone (for the clock below). -/
def c2note : PlannerNote :=
  ⟨1, "note", some "active", some (.awareStr 2592001 0), none⟩

/-- A clock on a machine whose local timezone is UTC+8 (for instance the
hard-coded reference zone Asia/Manila itself). -/
def c2clock : Clock := ⟨0, 28800⟩

/-- C2 counterexample: on a machine in the UTC+8 zone, a planner note
whose normalized due time is exactly 30 days + 1 second after "now" in
the reference timezone is INCLUDED by the aggregator, because the upper
bound `future_manila` reinterprets the naive local `now + 30d` as UTC
before converting to Manila, inflating the window by the local offset.
The claim says such an item is excluded. -/
theorem claim_C2_counterexample :
    refreshTasks c2clock "https://canvas.example.com" [c2note] [] [] =
      [⟨"note", 2620801, .name "Personal", "Planner Note", none,
        .note c2note⟩] ∧
    (2620801 : Int) = nowManila c2clock + 30 * 86400 + 1 := by
  constructor
  · decide
  · decide

/-- C2 amended: for every item of each source kind that passes the
non-date filters and parses, the aggregator includes it exactly when its
normalized due time lies in `[now_manila, future_manila]`, where
`future_manila = now_manila + 30 days + localOff` (the machine's local
UTC offset); a UTC local clock gives the claimed window
`[now, now + 30 days]`.  Consequently the upper bound rejects an item due
exactly 30 days + 1 second after "now" in the reference zone precisely
when the local offset is non-positive, and the lower bound admits an item
due exactly at "now" whenever the local offset is at least -30 days
(every real timezone). -/
theorem claim_C2_amended :
    (∀ (c : Clock) (base : String) (n : PlannerNote) (f : DateStr)
        (p : PyDateTime),
      (n.workflow_state = none ∨ n.workflow_state = some "active") →
      n.todo_date = some f → isoparse f = some p →
      (processNote c base n ≠ none ↔
        nowManila c ≤ toManilaNaive p ∧
          toManilaNaive p ≤ futureManila c)) ∧
    (∀ (c : Clock) (e : CalendarEvent) (f : DateStr) (p : PyDateTime),
      eventDate e = some f → isoparse f = some p →
      (processEvent c e ≠ none ↔
        nowManila c ≤ toManilaNaive p ∧
          toManilaNaive p ≤ futureManila c)) ∧
    (∀ (c : Clock) (base : String) (a : Assignment) (f : DateStr)
        (p : PyDateTime),
      ¬ (a.has_submitted_submissions ∨
        a.submission_workflow_state = some "submitted" ∨
        a.submission_workflow_state = some "graded" ∨
        a.submission_workflow_state = some "complete") →
      a.due_at = some f → isoparse f = some p →
      (processAssignment c base a ≠ none ↔
        nowManila c ≤ toManilaNaive p ∧
          toManilaNaive p ≤ futureManila c)) ∧
    (∀ c : Clock, futureManila c = nowManila c + 30 * 86400 + c.localOff) ∧
    (∀ c : Clock, c.localOff = 0 →
      futureManila c = nowManila c + 30 * 86400) ∧
    (∀ c : Clock,
      futureManila c < nowManila c + 30 * 86400 + 1 ↔ c.localOff ≤ 0) ∧
    (∀ c : Clock, -(30 * 86400) ≤ c.localOff →
      nowManila c ≤ futureManila c) := by
  refine ⟨?_, ?_, ?_, ?_, ?_, ?_, ?_⟩
  · intro c base n f p hw hd hp
    exact processNote_ne_none_iff hw hd hp
  · intro c e f p hd hp
    exact processEvent_ne_none_iff hd hp
  · intro c base a f p hsub hd hp
    exact processAssignment_ne_none_iff hsub hd hp
  · intro c
    simp [futureManila, future, nowLocal, nowManila]
    ring
  · intro c h0
    simp [futureManila, future, nowLocal, nowManila, h0]
    ring
  · intro c
    simp only [futureManila, future, nowLocal, nowManila, manilaOff]
    omega
  · intro c h
    simp only [futureManila, future, nowLocal, nowManila, manilaOff]
    omega

/-- C2 amended, witnessed at a concrete input: a note due exactly at
"now" in the reference zone, on a UTC machine. -/
theorem claim_C2_amended_witness :
    processNote ⟨0, 0⟩ "b" ⟨1, "t", none, some (.naiveStr 0), none⟩ ≠
        none ↔
      nowManila ⟨0, 0⟩ ≤ toManilaNaive (.naive 0) ∧
        toManilaNaive (.naive 0) ≤ futureManila ⟨0, 0⟩ :=
  claim_C2_amended.1 ⟨0, 0⟩ "b" ⟨1, "t", none, some (.naiveStr 0), none⟩
    (.naiveStr 0) (.naive 0) (Or.inl rfl) rfl rfl

/-- C4: an assignment whose submission workflow state is `graded` or
`submitted` never contributes a task, regardless of its due date. -/
theorem claim_C4_submitted_excluded (c : Clock) (base : String)
    (notes : List PlannerNote) (events : List CalendarEvent)
    (l1 l2 : List Assignment) (a : Assignment)
    (h : a.submission_workflow_state = some "graded" ∨
      a.submission_workflow_state = some "submitted") :
    refreshTasks c base notes events (l1 ++ a :: l2) =
      refreshTasks c base notes events (l1 ++ l2) := by
  simp [refreshTasks, List.filterMap_append, List.filterMap_cons,
    processAssignment_drop_submitted h]

/-- C4 witnessed at a concrete input: a graded assignment that is
otherwise inside the visibility window. -/
theorem claim_C4_witness :
    refreshTasks ⟨0, 0⟩ "b" [] []
        ([] ++ ⟨"hw", some 1, some 1, some (.naiveStr 0), false,
          some "graded", none⟩ :: []) =
      refreshTasks ⟨0, 0⟩ "b" [] [] ([] ++ []) :=
  claim_C4_submitted_excluded ⟨0, 0⟩ "b" [] [] [] []
    ⟨"hw", some 1, some 1, some (.naiveStr 0), false, some "graded", none⟩
    (Or.inl rfl)

/-- A concrete planner note with an absent workflow state and a due date
inside the visibility window. -/
def c5note : PlannerNote := ⟨2, "n", none, some (.naiveStr 86400), none⟩

/-- C5 counterexample: a planner note whose workflow state is ABSENT is
included by the aggregator (the source skips only a state that is present
and differs from `'active'`: `not in (None, 'active')`), while the claim
says a note with absent workflow state is excluded. -/
theorem claim_C5_counterexample :
    refreshTasks ⟨0, 0⟩ "b" [c5note] [] [] =
      [⟨"n", 115200, .name "Personal", "Planner Note", none,
        .note c5note⟩] := by
  decide

/-- C5 amended: a planner note whose workflow state is PRESENT and other
than `'active'` never contributes a task; an absent workflow state is
treated like `'active'`. -/
theorem claim_C5_amended (c : Clock) (base : String)
    (l1 l2 : List PlannerNote) (n : PlannerNote) (s : String)
    (events : List CalendarEvent) (assigns : List Assignment)
    (hw : n.workflow_state = some s) (hs : s ≠ "active") :
    refreshTasks c base (l1 ++ n :: l2) events assigns =
      refreshTasks c base (l1 ++ l2) events assigns := by
  simp [refreshTasks, List.filterMap_append, List.filterMap_cons,
    processNote_drop_inactive hw hs]

/-- C5 amended, witnessed at a concrete input: a completed note inside
the visibility window is dropped. -/
theorem claim_C5_amended_witness :
    refreshTasks ⟨0, 0⟩ "b"
        ([] ++ ⟨6, "done", some "completed", some (.naiveStr 0), none⟩ ::
          []) [] [] =
      refreshTasks ⟨0, 0⟩ "b" ([] ++ []) [] [] :=
  claim_C5_amended ⟨0, 0⟩ "b" [] []
    ⟨6, "done", some "completed", some (.naiveStr 0), none⟩ "completed"
    [] [] rfl (by decide)

/-- C6: the task list is the concatenation of the planner-note,
calendar-event and assignment tasks, sorted ascending by normalized due
time with a stable sort: the result is pairwise ordered, tasks with equal
due times keep their source-appended relative order (the filtered
subsequence at any fixed due time is unchanged), and three tasks with
distinct due times `D1 < D2 < D3` appended as `[D2, D1, D3]` come out as
`[D1, D2, D3]`. -/
theorem claim_C6_sorted_stable :
    (∀ (c : Clock) (base : String) (notes : List PlannerNote)
        (events : List CalendarEvent) (assigns : List Assignment),
      refreshTasks c base notes events assigns =
        sortTasks (notes.filterMap (processNote c base) ++
          events.filterMap (processEvent c) ++
          assigns.filterMap (processAssignment c base))) ∧
    (∀ l : List Task,
      (sortTasks l).Pairwise (fun a b => a.due_date ≤ b.due_date)) ∧
    (∀ (l : List Task) (d : Int),
      (sortTasks l).filter (fun u => u.due_date == d) =
        l.filter (fun u => u.due_date == d)) ∧
    (∀ t1 t2 t3 : Task, t1.due_date < t2.due_date →
      t2.due_date < t3.due_date →
      sortTasks [t2, t1, t3] = [t1, t2, t3]) := by
  refine ⟨fun _ _ _ _ _ => rfl, sortTasks_pairwise, sortTasks_filter_due,
    ?_⟩
  intro t1 t2 t3 h12 h23
  have h13 : t1.due_date < t3.due_date := lt_trans h12 h23
  simp [sortTasks, insertTask, le_of_lt h23, le_of_lt h13,
    not_le.mpr h12]

/-- Three concrete tasks with ascending due dates. -/
def c6t1 : Task :=
  ⟨"t1", 1, .name "x", "Planner Note", none, .note ⟨1, "t1", none, none,
    none⟩⟩

def c6t2 : Task :=
  ⟨"t2", 2, .name "x", "Planner Note", none, .note ⟨2, "t2", none, none,
    none⟩⟩

def c6t3 : Task :=
  ⟨"t3", 3, .name "x", "Planner Note", none, .note ⟨3, "t3", none, none,
    none⟩⟩

/-- C6 witnessed at a concrete input: `[D2, D1, D3]` sorts to
`[D1, D2, D3]`. -/
theorem claim_C6_witness : sortTasks [c6t2, c6t1, c6t3] =
    [c6t1, c6t2, c6t3] :=
  claim_C6_sorted_stable.2.2.2 c6t1 c6t2 c6t3 (by decide) (by decide)

/-- C7: every task produced by the aggregator carries a due date equal to
the Manila-naive normalization of its source item's parsed date field:
the common conversion shifts an offset-aware timestamp's UTC instant, and
a naive timestamp's wall clock treated as UTC, by the Manila offset, and
bare dates parse to naive midnight before the same conversion. -/
theorem claim_C7_normalized_due :
    (∀ (c : Clock) (base : String) (notes : List PlannerNote)
        (events : List CalendarEvent) (assigns : List Assignment)
        (t : Task), t ∈ refreshTasks c base notes events assigns →
      ∃ f p, rawDateField t.raw = some f ∧ isoparse f = some p ∧
        t.due_date = toManilaNaive p) ∧
    (∀ i o, toManilaNaive (.aware i o) = i + manilaOff) ∧
    (∀ w, toManilaNaive (.naive w) = w + manilaOff) ∧
    (∀ d, isoparse (.bareDate d) = some (.naive (d * 86400))) := by
  refine ⟨?_, fun _ _ => rfl, fun _ => rfl, fun _ => rfl⟩
  intro c base notes events assigns t ht
  have ht' := mem_sortTasks.mp ht
  rcases List.mem_append.mp ht' with h | h
  · rcases List.mem_append.mp h with h | h
    · obtain ⟨n, -, hn⟩ := List.mem_filterMap.mp h
      obtain ⟨f, p, hd, hp, hdue, hraw⟩ := processNote_eq_some hn
      exact ⟨f, p, by rw [hraw]; simpa [rawDateField] using hd, hp, hdue⟩
    · obtain ⟨e, -, he⟩ := List.mem_filterMap.mp h
      obtain ⟨f, p, hd, hp, hdue, hraw⟩ := processEvent_eq_some he
      exact ⟨f, p, by rw [hraw]; simpa [rawDateField] using hd, hp, hdue⟩
  · obtain ⟨a, -, ha⟩ := List.mem_filterMap.mp h
    obtain ⟨f, p, hd, hp, hdue, hraw⟩ := processAssignment_eq_some ha
    exact ⟨f, p, by rw [hraw]; simpa [rawDateField] using hd, hp, hdue⟩

/-- A concrete planner note with a bare-date `todo_date`, inside the
visibility window of the clock `⟨0, 0⟩`. -/
def c7note : PlannerNote := ⟨3, "w", some "active", some (.bareDate 1),
  none⟩

/-- The task the aggregator produces for `c7note`. -/
def c7task : Task := ⟨"w", 115200, .name "Personal", "Planner Note",
  none, .note c7note⟩

/-- C7 witnessed at a concrete input: the bare-date note's task stores
the Manila-naive normalization of its parsed `todo_date`. -/
theorem claim_C7_witness :
    ∃ f p, rawDateField c7task.raw = some f ∧ isoparse f = some p ∧
      c7task.due_date = toManilaNaive p :=
  claim_C7_normalized_due.1 ⟨0, 0⟩ "b" [c7note] [] [] c7task (by decide)

/-- A concrete planner note one day in the past. -/
def c8note : PlannerNote := ⟨4, "pn", some "active",
  some (.naiveStr (-86400)), none⟩

/-- A concrete calendar event one day in the past. -/
def c8event : CalendarEvent := ⟨some "ev", some (.naiveStr (-86400)),
  none, none, none, none⟩

/-- A concrete assignment one day in the past, with no submission. -/
def c8assign : Assignment := ⟨"as", some 1, some 1,
  some (.naiveStr (-86400)), false, none, none⟩

/-- C8 counterexample: an item of each source kind whose normalized due
time lies strictly inside the lookback window
`[now - 30 days, now)` is excluded by ALL THREE code paths — so the
effective lower bound is "now" in all three, not in exactly two with a
third path enforcing the 30-day-past cutoff as the claim states. -/
theorem claim_C8_counterexample :
    cutoffManila ⟨0, 0⟩ ≤ toManilaNaive (.naive (-86400)) ∧
    toManilaNaive (.naive (-86400)) < nowManila ⟨0, 0⟩ ∧
    processNote ⟨0, 0⟩ "b" c8note = none ∧
    processEvent ⟨0, 0⟩ c8event = none ∧
    processAssignment ⟨0, 0⟩ "b" c8assign = none := by
  decide

/-- C8 amended: the 30-day lookback cutoff is computed
(`cutoffManila`) but the effective lower bound of the visibility filter
becomes "now" in all three source-kind code paths: any item whose
normalized due time is before `now_manila` is dropped by every path (the
cutoff only bounds the calendar-event fetch range, not the filter). -/
theorem claim_C8_amended :
    (∀ (c : Clock) (base : String) (n : PlannerNote) (f : DateStr)
        (p : PyDateTime), n.todo_date = some f → isoparse f = some p →
      toManilaNaive p < nowManila c → processNote c base n = none) ∧
    (∀ (c : Clock) (e : CalendarEvent) (f : DateStr) (p : PyDateTime),
      eventDate e = some f → isoparse f = some p →
      toManilaNaive p < nowManila c → processEvent c e = none) ∧
    (∀ (c : Clock) (base : String) (a : Assignment) (f : DateStr)
        (p : PyDateTime), a.due_at = some f → isoparse f = some p →
      toManilaNaive p < nowManila c →
      processAssignment c base a = none) := by
  refine ⟨?_, ?_, ?_⟩
  · intro c base n f p hd hp hlt
    exact processNote_drop_before_now hd hp hlt
  · intro c e f p hd hp hlt
    exact processEvent_drop_before_now hd hp hlt
  · intro c base a f p hd hp hlt
    exact processAssignment_drop_before_now hd hp hlt

/-- C8 amended, witnessed at a concrete input: the one-day-past note is
dropped. -/
theorem claim_C8_amended_witness : processNote ⟨0, 0⟩ "b" c8note = none :=
  claim_C8_amended.1 ⟨0, 0⟩ "b" c8note (.naiveStr (-86400))
    (.naive (-86400)) rfl rfl (by decide)

/-- C9: a single item whose date field fails to parse is dropped and
every other item of every source kind is processed as usual — removing
the malformed item from the input leaves the aggregated output unchanged
(and the aggregation functions are total: every per-item exception is
caught). -/
theorem claim_C9_malformed_item_dropped :
    (∀ (c : Clock) (base : String) (l1 l2 : List PlannerNote)
        (n : PlannerNote) (s : String) (events : List CalendarEvent)
        (assigns : List Assignment),
      n.todo_date = some (.malformed s) →
      refreshTasks c base (l1 ++ n :: l2) events assigns =
        refreshTasks c base (l1 ++ l2) events assigns) ∧
    (∀ (c : Clock) (base : String) (notes : List PlannerNote)
        (l1 l2 : List CalendarEvent) (e : CalendarEvent) (s : String)
        (assigns : List Assignment),
      e.start_at = some (.malformed s) →
      refreshTasks c base notes (l1 ++ e :: l2) assigns =
        refreshTasks c base notes (l1 ++ l2) assigns) ∧
    (∀ (c : Clock) (base : String) (notes : List PlannerNote)
        (events : List CalendarEvent) (l1 l2 : List Assignment)
        (a : Assignment) (s : String),
      a.due_at = some (.malformed s) →
      refreshTasks c base notes events (l1 ++ a :: l2) =
        refreshTasks c base notes events (l1 ++ l2)) := by
  refine ⟨?_, ?_, ?_⟩
  · intro c base l1 l2 n s events assigns h
    simp [refreshTasks, List.filterMap_append, List.filterMap_cons,
      processNote_drop_malformed h]
  · intro c base notes l1 l2 e s assigns h
    simp [refreshTasks, List.filterMap_append, List.filterMap_cons,
      processEvent_drop_malformed h]
  · intro c base notes events l1 l2 a s h
    simp [refreshTasks, List.filterMap_append, List.filterMap_cons,
      processAssignment_drop_malformed h]

/-- C9 witnessed at a concrete input: a note with an unparseable
`todo_date` is dropped, other lists untouched. -/
theorem claim_C9_witness :
    refreshTasks ⟨0, 0⟩ "b"
        ([] ++ ⟨5, "m", none, some (.malformed "oops"), none⟩ :: []) []
        [] =
      refreshTasks ⟨0, 0⟩ "b" ([] ++ []) [] [] :=
  claim_C9_malformed_item_dropped.1 ⟨0, 0⟩ "b" [] []
    ⟨5, "m", none, some (.malformed "oops"), none⟩ "oops" [] [] rfl

/-- C1 witnessed at a concrete input: with a 200 planner-note response
the planner result is returned and only that one request is issued. -/
theorem claim_C1_witness :
    create_task (.resp 200 "" (some "ok")) (.resp 500 "err" none) "T" "D"
        (.naive 0) none =
      .ok ((create_planner_note (.resp 200 "" (some "ok")) "T" "D"
          (isoformat (.naive 0)) none).1,
        [(create_planner_note (.resp 200 "" (some "ok")) "T" "D"
          (isoformat (.naive 0)) none).2]) :=
  (claim_C1_create_task_two_tier (.resp 200 "" (some "ok"))
    (.resp 500 "err" none) "T" "D" (.naive 0) none).2.1 (by decide)

/-- C3 witnessed at a concrete input: a 404 on the course fetch yields
the empty list. -/
theorem claim_C3_witness : get_active_courses (.resp 404 none) = [] :=
  claim_C3_fetch_silent_degradation.1 404 none (by decide)

end Canvas
